import Mathlib

/-!
Verification development for the AI-Beer-Crawl bot core.

The definitions below are a shallow embedding of the Python source:
  * `src/tasks/celery_tasks.py`  — message deduplication, rate limiting,
    the `process_whatsapp_message` gate, crawl progression tasks and the
    daily cleanup sweep;
  * `src/utils/user_state.py`    — the per-user signup conversation state;
  * `src/utils/bot_responses.py` — the default response templates;
  * `src/routes/beer_crawl.py`   — group matching (`find_group`), crawl
    activation (`start_group`), progression (`next_bar`) and `end_group`;
  * `src/models/beer_crawl.py`   — the persistent data model.

Time is modelled as a natural number of seconds.  The Redis store used by
the dedup / rate-limit layer is modelled as an association list from keys
to entries carrying an optional absolute expiry; a key "exists" exactly
when it has a live (unexpired) entry, matching Redis TTL semantics.  The
md5 fingerprint of `create_message_key` is modelled injectively: the key
is the normalised triple itself (an md5 collision is the only behaviour
this abstracts away).  The `up` flag models reachability of the store:
when it is `false` every store operation raises, which the embedded
functions translate through the `try/except` blocks of the source.
-/

namespace BeerCrawl

/-- Configuration defaults from `celery_tasks.py` (env overrides are out of
scope; the spec states the same defaults). `MESSAGE_COOLDOWN = 30`. -/
def MESSAGE_COOLDOWN : Nat := 30

/-- Default `USER_COOLDOWN = 10` seconds. -/
def USER_COOLDOWN : Nat := 10

/-- Default `RATE_LIMIT_WINDOW = 300` seconds. -/
def RATE_LIMIT_WINDOW : Nat := 300

/-- Default `RATE_LIMIT_MAX = 5` messages per window. -/
def RATE_LIMIT_MAX : Nat := 5

/-- Redis keys used by the dedup / rate-limit layer of `celery_tasks.py`.
The three string patterns `msg_dedupe:<md5(user:type:normtext)>`,
`user_cooldown:<user>` and `msg_count:<user>` are pairwise distinct and
componentwise injective, which the inductive constructors model. -/
inductive RKey where
  | msgDedupe (user mtype normText : String)
  | userCooldown (user : String)
  | msgCount (user : String)
deriving DecidableEq, Repr

/-- A stored Redis value: a numeric payload (dedup markers store `"1"`,
counters store their count) and an optional absolute expiry time.
`expiresAt = none` models a key with no TTL (Redis PERSIST state). -/
structure REntry where
  value : Nat
  expiresAt : Option Nat
deriving DecidableEq, Repr

/-- The ephemeral store: reachability flag plus key/value data. -/
structure RedisStore where
  up : Bool
  data : List (RKey × REntry)
deriving DecidableEq, Repr

/-- An entry is live at time `t` when its expiry has not passed. -/
def REntry.live (e : REntry) (t : Nat) : Bool :=
  match e.expiresAt with
  | none => true
  | some x => decide (t < x)

/-- Look up the live entry for a key at time `t` (expired entries behave
as absent, matching Redis lazy expiry). -/
def lookupLive (d : List (RKey × REntry)) (k : RKey) (t : Nat) : Option REntry :=
  match d.find? (fun p => p.1 = k) with
  | some p => if p.2.live t then some p.2 else none
  | none => none

/-- Redis `EXISTS` at time `t`. -/
def existsKey (d : List (RKey × REntry)) (k : RKey) (t : Nat) : Bool :=
  (lookupLive d k t).isSome

/-- Redis `SETEX key ttl v`: store `v` with expiry `t + ttl`, replacing any
previous entry for the key. -/
def setex (d : List (RKey × REntry)) (k : RKey) (ttl : Nat) (v : Nat) (t : Nat) :
    List (RKey × REntry) :=
  (k, ⟨v, some (t + ttl)⟩) :: d.filter (fun p => ¬ p.1 = k)

/-- Redis `INCR`: increment a live counter keeping its TTL; a missing or
expired key is (re)created with value 1 and no TTL.  Returns the new
value and the updated data. -/
def incr (d : List (RKey × REntry)) (k : RKey) (t : Nat) :
    Nat × List (RKey × REntry) :=
  match lookupLive d k t with
  | some e => (e.value + 1, (k, ⟨e.value + 1, e.expiresAt⟩) :: d.filter (fun p => ¬ p.1 = k))
  | none => (1, (k, ⟨1, none⟩) :: d.filter (fun p => ¬ p.1 = k))

/-- Redis `EXPIRE key ttl` at time `t`: set the expiry of a live key. -/
def expireKey (d : List (RKey × REntry)) (k : RKey) (ttl : Nat) (t : Nat) :
    List (RKey × REntry) :=
  match lookupLive d k t with
  | some e => (k, ⟨e.value, some (t + ttl)⟩) :: d.filter (fun p => ¬ p.1 = k)
  | none => d

/-- Python whitespace recognised by `strip()` (the characters occurring in
message payloads). -/
def isPyWS (c : Char) : Bool :=
  c = ' ' ∨ c = '\t' ∨ c = '\n' ∨ c = '\r'

/-- Python `strip()` on the character list. -/
def stripChars (l : List Char) : List Char :=
  ((l.dropWhile isPyWS).reverse.dropWhile isPyWS).reverse

/-- Python `str.lower()`. -/
def lowerStr (s : String) : String :=
  ⟨s.data.map Char.toLower⟩

/-- Normalisation applied by `create_message_key`: `strip().lower()`. -/
def normalizeText (s : String) : String :=
  lowerStr ⟨stripChars s.data⟩

/-- The dedup fingerprint key of `create_message_key(user, text, type)`:
`msg_dedupe:` followed by the md5 of `user:type:strip(lower(text))`,
modelled injectively by the constructor. -/
def create_message_key (user text mtype : String) : RKey :=
  RKey.msgDedupe user mtype (normalizeText text)

/-- Embedding of `is_duplicate_message(user, text, type)` with the default
cooldown.  Returns `(true, _)` for duplicate/deny, `(false, _)` for
new/allowed, paired with the updated store.  When the store is
unreachable every Redis call raises and the `except` branch returns
`False` (allow) with the store untouched. -/
def is_duplicate_message (s : RedisStore) (t : Nat) (user text mtype : String) :
    Bool × RedisStore :=
  if s.up then
    let message_key := create_message_key user text mtype
    if existsKey s.data message_key t then
      (true, s)
    else
      let user_cooldown_key := RKey.userCooldown user
      if existsKey s.data user_cooldown_key t then
        (true, s)
      else
        let d1 := setex s.data message_key MESSAGE_COOLDOWN 1 t
        let d2 := setex d1 user_cooldown_key USER_COOLDOWN 1 t
        (false, { s with data := d2 })
  else
    (false, s)

/-- Embedding of `increment_user_message_count(user, window_seconds)`:
`INCR` the per-sender counter, and only when the incremented value is 1
set its expiry to the window.  When the store is unreachable the
`except` branch returns 1 with the store untouched. -/
def increment_user_message_count (s : RedisStore) (t : Nat) (user : String)
    (window_seconds : Nat) : Nat × RedisStore :=
  if s.up then
    let count_key := RKey.msgCount user
    let r := incr s.data count_key t
    let d2 := if r.1 = 1 then expireKey r.2 count_key window_seconds t else r.2
    (r.1, { s with data := d2 })
  else
    (1, s)

/-- Embedding of `get_user_message_count`: read the live counter, 0 when
absent or the store is unreachable. -/
def get_user_message_count (s : RedisStore) (t : Nat) (user : String) : Nat :=
  if s.up then
    match lookupLive s.data (RKey.msgCount user) t with
    | some e => e.value
    | none => 0
  else 0

/-- Outcome of the dedup / rate-limit gate of `process_whatsapp_message`. -/
inductive GateResult where
  | ignored
  | rateLimited (count : Nat)
  | processed
deriving DecidableEq, Repr

/-- Embedding of the guard section of `process_whatsapp_message`: the
dedup check, then the rate-limit increment and threshold test
(`message_count > RATE_LIMIT_MAX`); messages passing both continue to
normal routing (`processed`). -/
def process_whatsapp_message (s : RedisStore) (t : Nat) (user text mtype : String) :
    GateResult × RedisStore :=
  let dup := is_duplicate_message s t user text mtype
  if dup.1 then
    (GateResult.ignored, dup.2)
  else
    let rc := increment_user_message_count dup.2 t user RATE_LIMIT_WINDOW
    if RATE_LIMIT_MAX < rc.1 then
      (GateResult.rateLimited rc.1, rc.2)
    else
      (GateResult.processed, rc.2)

/-- Run the gate over a timed sequence of messages from one sender,
returning the per-message outcomes. -/
def runGate (s : RedisStore) (user mtype : String) :
    List (Nat × String) → List GateResult × RedisStore
  | [] => ([], s)
  | (t, text) :: rest =>
      let r := process_whatsapp_message s t user text mtype
      let rest2 := runGate r.2 user mtype rest
      (r.1 :: rest2.1, rest2.2)

/-! ## Conversation state (`src/utils/user_state.py`) -/

/-- The `state_timeout` of `UserStateManager.__init__`: 30 minutes. -/
def STATE_TIMEOUT : Nat := 1800

/-- The stage strings of `UserStateManager.STATES`. -/
def STATE_NEW : String := "new"

/-- Stage `COLLECTING_AREA`. -/
def STATE_COLLECTING_AREA : String := "collecting_area"

/-- Stage `COLLECTING_GROUP_TYPE`. -/
def STATE_COLLECTING_GROUP_TYPE : String := "collecting_group_type"

/-- Stage `COLLECTING_GENDER`. -/
def STATE_COLLECTING_GENDER : String := "collecting_gender"

/-- Stage `COLLECTING_AGE`. -/
def STATE_COLLECTING_AGE : String := "collecting_age"

/-- Stage `COMPLETED`. -/
def STATE_COMPLETED : String := "completed"

/-- The enumerated areas of `UserStateManager.AREAS`. -/
def AREAS : List String :=
  ["northern quarter", "city centre", "deansgate", "ancoats", "spinningfields"]

/-- The enumerated group types of `UserStateManager.GROUP_TYPES`. -/
def GROUP_TYPES : List String :=
  ["mixed", "males only", "females only"]

/-- The stored conversation-state record (the JSON value of
`user_state:<number>`): stage, owner, `created_at`, `updated_at` and the
collected signup fields. -/
structure UserState where
  state : String
  whatsapp_number : String
  created_at : Nat
  updated_at : Nat
  data : List (String × String)
deriving DecidableEq, Repr

/-- The slot of one user in the state store, paired with the absolute Redis key
expiry written by `SETEX` (`none` models an absent key). -/
abbrev UStore : Type := Option (UserState × Nat)

/-- Embedding of `UserStateManager.set_user_state`: build a fresh record
with `created_at = updated_at = now` and store it with a full
`state_timeout` TTL, overwriting any previous record. -/
def set_user_state (number state : String) (data : List (String × String)) (t : Nat) :
    UStore :=
  some (⟨state, number, t, t, data⟩, t + STATE_TIMEOUT)

/-- Embedding of `UserStateManager.get_user_state`: return the stored
record unless the Redis key has expired or `now - created_at` exceeds
`state_timeout` (the source also deletes the key in the latter case,
which is unobservable to later reads since time only moves forward). -/
def get_user_state (store : UStore) (t : Nat) : Option UserState :=
  match store with
  | none => none
  | some (st, keyExpiry) =>
      if t < keyExpiry then
        if STATE_TIMEOUT < t - st.created_at then none
        else some st
      else none

/-- Python dict assignment `data[key] = value` on the association list. -/
def upsertField (d : List (String × String)) (k v : String) : List (String × String) :=
  if d.any (fun p => p.1 = k) then d.map (fun p => if p.1 = k then (k, v) else p)
  else d ++ [(k, v)]

/-- Embedding of `UserStateManager.update_user_data`: re-read the state,
merge one field, refresh `updated_at` (keeping `created_at`) and rewrite
the key with a full `state_timeout` TTL. -/
def update_user_data (store : UStore) (t : Nat) (key value : String) : UStore :=
  match get_user_state store t with
  | some st =>
      some ({ st with data := upsertField st.data key value, updated_at := t },
            t + STATE_TIMEOUT)
  | none => store

/-- Occurrence of `needle` as a contiguous run inside `l` (substring containment `needle in hay` of Python). -/
def isSubList (needle : List Char) : List Char → Bool
  | [] => needle.isEmpty
  | c :: rest => needle.isPrefixOf (c :: rest) || isSubList needle rest

/-- Python `needle in hay` on strings. -/
def strContains (hay needle : String) : Bool :=
  isSubList needle.data hay.data

/-- Embedding of `UserStateManager.extract_area_from_message`: the first
enumerated area occurring case-insensitively as a substring. -/
def extract_area_from_message (message : String) : Option String :=
  AREAS.find? (fun area => strContains (lowerStr message) area)

/-- Capitalisation of the character following each space, the recursive
part of Python `str.title()` on the lowercase option lists. -/
def titleAfterSpace : List Char → List Char
  | [] => []
  | c :: rest =>
      if c = ' ' then
        c :: (match rest with
              | [] => []
              | c2 :: r2 => Char.toUpper c2 :: titleAfterSpace r2)
      else c :: titleAfterSpace rest

/-- Python `str.title()` restricted to the lowercase option lists it is
applied to: capitalise the first letter of each space-separated word. -/
def titleCase (s : String) : String :=
  match s.data with
  | [] => s
  | c :: rest => ⟨Char.toUpper c :: titleAfterSpace rest⟩

/-- Embedding of `get_formatted_areas`.  The source joins with the
two-character separator backslash-n (a `"\\n"` literal in Python), which
is reproduced verbatim. -/
def get_formatted_areas : String :=
  String.intercalate "\\n" (AREAS.map (fun a => "📍 " ++ titleCase a))

/-- Embedding of `get_formatted_group_types` (same literal separator). -/
def get_formatted_group_types : String :=
  String.intercalate "\\n" (GROUP_TYPES.map (fun g => "👥 " ++ titleCase g))

/-! Default response templates from `bot_responses.py` (the registry is
modelled in its default configuration), with `{placeholder}` application
embedded as concatenation. -/

/-- Template `signup_start`, the prompt sent on entering
`COLLECTING_AREA` by `start_signup_flow`. -/
def response_signup_start (areas : String) : String :=
  "🍺 Welcome to Beer Crawl! Let\u0027s get you set up.\n\nFirst, which area would you like to explore?\n\n"
    ++ areas ++ "\n\nJust type the area name!"

/-- Template `signup_area_invalid`, the re-prompt sent on an unrecognized
area. -/
def response_signup_area_invalid (areas : String) : String :=
  "🤔 I don\u0027t recognize that area. Please choose from:\n\n" ++ areas

/-- Template `signup_group_type`, sent after a recognized area. -/
def response_signup_group_type (group_types : String) : String :=
  "Great choice! 🎯 Now, what type of group would you prefer?\n\n"
    ++ group_types ++ "\n\nJust type your preference!"

/-- Embedding of `start_signup_flow` for a not-yet-registered user: set
the state to `COLLECTING_AREA` (fresh record, empty data) and send the
`signup_start` prompt.  Returns the new store and the outbound text. -/
def start_signup_flow (number : String) (t : Nat) : UStore × String :=
  (set_user_state number STATE_COLLECTING_AREA [] t,
   response_signup_start get_formatted_areas)

/-- Embedding of the `COLLECTING_AREA` branch of `handle_signup_flow`.
`user_state` is the task argument (the snapshot read by
`process_whatsapp_message`), distinct from the live store.  On success
the source first merges the field with `update_user_data` and then
overwrites the whole record via `set_user_state` with the `data` of the
snapshot; the final store is that overwrite.  On failure nothing is
written and the `signup_area_invalid` re-prompt is sent. -/
def handle_signup_flow_area (store : UStore) (t : Nat) (number message_text : String)
    (user_state : UserState) : UStore × String :=
  match extract_area_from_message message_text with
  | some area =>
      let s1 := update_user_data store t "preferred_area" area
      let s2 := set_user_state number STATE_COLLECTING_GROUP_TYPE user_state.data t
      let _ := s1
      (s2, response_signup_group_type get_formatted_group_types)
  | none =>
      (store, response_signup_area_invalid get_formatted_areas)

/-! ## Persistent data model and group operations
(`src/models/beer_crawl.py`, `src/routes/beer_crawl.py`) -/

/-- The `GroupStatus` enum. -/
inductive GroupStatus where
  | forming
  | active
  | completed
  | cancelled
deriving DecidableEq, Repr

/-- Configuration default `MIN_GROUP_SIZE = 3` of `routes/beer_crawl.py`. -/
def MIN_GROUP_SIZE : Nat := 3

/-- Configuration default `MAX_GROUP_SIZE = 5`. -/
def MAX_GROUP_SIZE : Nat := 5

/-- A `crawl_groups` row (fields relevant to the claims). -/
structure CrawlGroup where
  id : Nat
  area : String
  status : GroupStatus
  max_members : Nat
  current_members : Nat
  whatsapp_group_id : Option String := none
  start_time : Option Nat := none
  end_time : Option Nat := none
deriving DecidableEq, Repr

/-- A `group_members` row. -/
structure GroupMember where
  group_id : Nat
  user_preferences_id : Nat
  is_admin : Bool := false
deriving DecidableEq, Repr

/-- A `bars` row (fields relevant to the claims). -/
structure Bar where
  id : Nat
  area : String
  is_active : Bool := true
deriving DecidableEq, Repr

/-- A `crawl_sessions` row. -/
structure CrawlSession where
  id : Nat
  group_id : Nat
  bar_id : Nat
  order_in_crawl : Nat
  is_current : Bool := false
  start_time : Option Nat := none
  end_time : Option Nat := none
deriving DecidableEq, Repr

/-- The relational store acted on by the route handlers. -/
structure Db where
  groups : List CrawlGroup
  members : List GroupMember
  bars : List Bar
  sessions : List CrawlSession
deriving DecidableEq, Repr

/-- Number of membership rows of a group (the `len(members)` of the spec
data model). -/
def membersOf (db : Db) (gid : Nat) : Nat :=
  (db.members.filter (fun m => m.group_id = gid)).length

/-- A fresh primary key for a new group. -/
def freshGroupId (db : Db) : Nat :=
  (db.groups.map (fun g => g.id)).foldr max 0 + 1

/-- A fresh primary key for a new session row. -/
def freshSessionId (db : Db) : Nat :=
  (db.sessions.map (fun s => s.id)).foldr max 0 + 1

/-- Outcome of a `find_group` call. -/
inductive FindGroupResult where
  | alreadyInGroup (gid : Nat)
  | joined (gid : Nat) (ready_to_start : Bool)
  | created (gid : Nat)
deriving DecidableEq, Repr

/-- What one `find_group` call reads before it writes: an existing
forming/active membership, or the first-fit join target together with the
member count observed at read time, or nothing. -/
inductive FGRead where
  | alreadyMember (gid : Nat)
  | joinTarget (gid observed_members max_members : Nat)
  | noGroup
deriving DecidableEq, Repr

/-- The read phase of `find_group` (`routes/beer_crawl.py`): the
membership precheck, then the first-fit query for a forming group in the
preferred area with `current_members < max_members`.  The observed
`current_members` is recorded because the subsequent Python increment
`available_group.current_members += 1` writes back `observed + 1`. -/
def find_group_read (db : Db) (uid : Nat) (area : String) : FGRead :=
  match db.members.find? (fun m =>
      m.user_preferences_id = uid ∧
      db.groups.any (fun g => g.id = m.group_id ∧
        (g.status = GroupStatus.forming ∨ g.status = GroupStatus.active))) with
  | some m => FGRead.alreadyMember m.group_id
  | none =>
      match db.groups.find? (fun g =>
          g.area = area ∧ g.status = GroupStatus.forming ∧
          g.current_members < g.max_members) with
      | some g => FGRead.joinTarget g.id g.current_members g.max_members
      | none => FGRead.noGroup

/-- The write/commit phase of `find_group`: insert the membership row and
store `observed + 1` as the member count (the join case), or create a new
forming group with the caller as admin.  `ready_to_start` mirrors
`current_members >= max_members` after the write. -/
def find_group_write (db : Db) (uid : Nat) (area : String) :
    FGRead → Db × FindGroupResult
  | FGRead.alreadyMember gid => (db, FindGroupResult.alreadyInGroup gid)
  | FGRead.joinTarget gid observed mx =>
      ({ db with
          members := db.members ++ [⟨gid, uid, false⟩],
          groups := db.groups.map (fun g =>
            if g.id = gid then { g with current_members := observed + 1 } else g) },
       FindGroupResult.joined gid (decide (mx ≤ observed + 1)))
  | FGRead.noGroup =>
      let gid := freshGroupId db
      ({ db with
          groups := db.groups ++
            [{ id := gid, area := area, status := GroupStatus.forming,
               max_members := MAX_GROUP_SIZE, current_members := 1 }],
          members := db.members ++ [⟨gid, uid, true⟩] },
       FindGroupResult.created gid)

/-- One uninterleaved (serial) `find_group` call. -/
def find_group (db : Db) (uid : Nat) (area : String) : Db × FindGroupResult :=
  find_group_write db uid area (find_group_read db uid area)

/-- Outcome of a `start_group` call. -/
inductive StartResult where
  | started
  | errNotForming
  | errNotEnoughMembers
  | errNotEnoughBars
  | errNotFound
deriving DecidableEq, Repr

/-- Embedding of `start_group`: reject unless the group is forming with at
least `MIN_GROUP_SIZE` members; query the active bars of the area; reject
if fewer than 3; otherwise select `random.sample(bars, min(5, len(bars)))`
— the sampler is passed as a parameter `sample`, constrained in the
theorems to return a without-replacement selection — create one
`CrawlSession` per selected bar with `order_in_crawl = i + 1` (the first
current), and set the group active. -/
def start_group (db : Db) (t : Nat) (gid : Nat)
    (sample : List Bar → Nat → List Bar) : Db × StartResult :=
  match db.groups.find? (fun g => g.id = gid) with
  | none => (db, StartResult.errNotFound)
  | some g =>
      if ¬ g.status = GroupStatus.forming then (db, StartResult.errNotForming)
      else if g.current_members < MIN_GROUP_SIZE then (db, StartResult.errNotEnoughMembers)
      else
        let bars := db.bars.filter (fun b => b.area = g.area ∧ b.is_active = true)
        if bars.length < 3 then (db, StartResult.errNotEnoughBars)
        else
          let selected := sample bars (min 5 bars.length)
          let base := freshSessionId db
          let newSessions := selected.enum.map (fun p =>
            { id := base + p.1, group_id := gid, bar_id := p.2.id,
              order_in_crawl := p.1 + 1, is_current := p.1 == 0 : CrawlSession })
          ({ db with
              sessions := db.sessions ++ newSessions,
              groups := db.groups.map (fun g2 =>
                if g2.id = gid then { g2 with status := GroupStatus.active, start_time := some t }
                else g2) },
           StartResult.started)

/-- Outcome of a `next_bar` call. -/
inductive NextBarResult where
  | movedTo (bar_id order : Nat)
  | completedCrawl
  | errNotActive
  | errNoCurrentSession
  | errNotFound
deriving DecidableEq, Repr

/-- Embedding of `next_bar`: reject unless active; find the current
session; mark it ended (`is_current = False`, `end_time = now`); if a
session with the next `order_in_crawl` exists make it current, else set
the group completed with `end_time = now`. -/
def next_bar (db : Db) (t : Nat) (gid : Nat) : Db × NextBarResult :=
  match db.groups.find? (fun g => g.id = gid) with
  | none => (db, NextBarResult.errNotFound)
  | some g =>
      if ¬ g.status = GroupStatus.active then (db, NextBarResult.errNotActive)
      else
        match db.sessions.find? (fun s => s.group_id = gid ∧ s.is_current = true) with
        | none => (db, NextBarResult.errNoCurrentSession)
        | some cur =>
            let sessions1 := db.sessions.map (fun s =>
              if s.id = cur.id then { s with is_current := false, end_time := some t } else s)
            match db.sessions.find? (fun s =>
                s.group_id = gid ∧ s.order_in_crawl = cur.order_in_crawl + 1) with
            | some nxt =>
                ({ db with sessions := sessions1.map (fun s =>
                    if s.id = nxt.id then { s with is_current := true, start_time := some t }
                    else s) },
                 NextBarResult.movedTo nxt.bar_id (cur.order_in_crawl + 1))
            | none =>
                ({ db with
                    sessions := sessions1,
                    groups := db.groups.map (fun g2 =>
                      if g2.id = gid then
                        { g2 with status := GroupStatus.completed, end_time := some t }
                      else g2) },
                 NextBarResult.completedCrawl)

/-- The deferred scheduling a `progress_to_next_bar` task performs after
its `next-bar` call. -/
inductive NextAction where
  | advanceIn (secs : Nat)
  | endIn (secs : Nat)
  | endNow
  | noAction
deriving DecidableEq, Repr

/-- Embedding of the scheduling decision of `progress_to_next_bar`
(`celery_tasks.py`): on a move, if the group chat id is known, schedule
one further advance in 3600 s while the local hour is before 23, else a
deferred session end; on a completed crawl trigger the session end
immediately; on an error response schedule nothing. -/
def progress_to_next_bar_action (res : NextBarResult) (hasGroupChat : Bool)
    (hour : Nat) : NextAction :=
  match res with
  | NextBarResult.movedTo _ _ =>
      if hasGroupChat then
        (if hour < 23 then NextAction.advanceIn 3600 else NextAction.endIn 3600)
      else NextAction.noAction
  | NextBarResult.completedCrawl => NextAction.endNow
  | _ => NextAction.noAction

/-- Embedding of `end_group`: missing group is a 404 (no change);
otherwise the first current session of the group, if any, is marked
ended, and the group is set completed with `end_time = now`.  The call
never fails on an already-completed group. -/
def end_group (db : Db) (t : Nat) (gid : Nat) : Db :=
  match db.groups.find? (fun g => g.id = gid) with
  | none => db
  | some _ =>
      let sessions1 :=
        match db.sessions.find? (fun s => s.group_id = gid ∧ s.is_current = true) with
        | some cur => db.sessions.map (fun s =>
            if s.id = cur.id then { s with is_current := false, end_time := some t } else s)
        | none => db.sessions
      { db with
          sessions := sessions1,
          groups := db.groups.map (fun g =>
            if g.id = gid then { g with status := GroupStatus.completed, end_time := some t }
            else g) }

/-- The `GET /groups?status=active` filter of `get_groups`: the string
`active` selects both `FORMING` and `ACTIVE` groups. -/
def get_groups_filter_active (db : Db) : List CrawlGroup :=
  db.groups.filter (fun g =>
    g.status = GroupStatus.forming ∨ g.status = GroupStatus.active)

/-- Embedding of `daily_cleanup`: fetch the groups the `active` filter
returns, then end each of them by id. -/
def daily_cleanup (db : Db) (t : Nat) : Db :=
  (get_groups_filter_active db).foldl (fun d g => end_group d t g.id) db

/-- Completing a group record, the group-side effect of `end_group`. -/
def completeGroup (t : Nat) (g : CrawlGroup) : CrawlGroup :=
  { g with status := GroupStatus.completed, end_time := some t }

/-- The per-group update `end_group` applies to the groups table. -/
def endGroupUpdate (t : Nat) (gid : Nat) (g : CrawlGroup) : CrawlGroup :=
  if g.id = gid then completeGroup t g else g

/-! ## Helper lemmas about the ephemeral store -/

theorem find?_key_filter_ne (d : List (RKey × REntry)) (k k2 : RKey) (h : ¬ k2 = k) :
    (d.filter (fun p => ¬ p.1 = k)).find? (fun p => p.1 = k2) =
      d.find? (fun p => p.1 = k2) := by
  rw [List.find?_filter]
  congr 1
  funext p
  by_cases hp : p.1 = k2
  · have hpk : ¬ p.1 = k := by
      rw [hp]
      exact h
    simp [hp, hpk, h]
  · simp [hp]

theorem lookupLive_consFilter_ne (d : List (RKey × REntry)) (k k2 : RKey) (e : REntry)
    (t2 : Nat) (h : ¬ k2 = k) :
    lookupLive ((k, e) :: d.filter (fun p => ¬ p.1 = k)) k2 t2 = lookupLive d k2 t2 := by
  unfold lookupLive
  rw [List.find?_cons_of_neg _ (by simpa using fun hh => h hh.symm),
    find?_key_filter_ne d k k2 h]

theorem lookupLive_consFilter_self (d : List (RKey × REntry)) (k : RKey) (e : REntry)
    (t2 : Nat) :
    lookupLive ((k, e) :: d.filter (fun p => ¬ p.1 = k)) k t2 =
      if e.live t2 then some e else none := by
  unfold lookupLive
  rw [List.find?_cons_of_pos _ (by simp)]

theorem lookupLive_setex_ne (d : List (RKey × REntry)) (k k2 : RKey) (ttl v t t2 : Nat)
    (h : ¬ k2 = k) :
    lookupLive (setex d k ttl v t) k2 t2 = lookupLive d k2 t2 := by
  unfold setex
  exact lookupLive_consFilter_ne d k k2 _ t2 h

theorem lookupLive_setex_self (d : List (RKey × REntry)) (k : RKey) (ttl v t t2 : Nat) :
    lookupLive (setex d k ttl v t) k t2 =
      if t2 < t + ttl then some ⟨v, some (t + ttl)⟩ else none := by
  unfold setex
  rw [lookupLive_consFilter_self]
  simp [REntry.live]

theorem lookupLive_incr_ne (d : List (RKey × REntry)) (k k2 : RKey) (t t2 : Nat)
    (h : ¬ k2 = k) :
    lookupLive (incr d k t).2 k2 t2 = lookupLive d k2 t2 := by
  unfold incr
  cases hl : lookupLive d k t with
  | some e => simp only [hl]; exact lookupLive_consFilter_ne d k k2 _ t2 h
  | none => simp only [hl]; exact lookupLive_consFilter_ne d k k2 _ t2 h

theorem lookupLive_expireKey_ne (d : List (RKey × REntry)) (k k2 : RKey) (ttl t t2 : Nat)
    (h : ¬ k2 = k) :
    lookupLive (expireKey d k ttl t) k2 t2 = lookupLive d k2 t2 := by
  unfold expireKey
  cases hl : lookupLive d k t with
  | some e => simp only [hl]; exact lookupLive_consFilter_ne d k k2 _ t2 h
  | none => simp only [hl]

theorem lookupLive_live (d : List (RKey × REntry)) (k : RKey) (t : Nat) (e : REntry)
    (h : lookupLive d k t = some e) : e.live t = true := by
  unfold lookupLive at h
  cases hf : d.find? (fun p => p.1 = k) with
  | none =>
      simp only [hf] at h
      exact Option.noConfusion h
  | some p =>
      simp only [hf] at h
      by_cases hl : p.2.live t
      · rw [if_pos hl] at h
        cases h
        exact hl
      · rw [if_neg hl] at h
        cases h

theorem get_after_increment (s : RedisStore) (t window : Nat) (user : String)
    (hup : s.up = true) (hwin : 0 < window) :
    (increment_user_message_count s t user window).1 =
      get_user_message_count s t user + 1 ∧
    get_user_message_count (increment_user_message_count s t user window).2 t user =
      get_user_message_count s t user + 1 := by
  cases hl : lookupLive s.data (RKey.msgCount user) t with
  | none =>
      have hincr : incr s.data (RKey.msgCount user) t =
          (1, (RKey.msgCount user, ⟨1, none⟩) ::
            s.data.filter (fun p => ¬ p.1 = RKey.msgCount user)) := by
        unfold incr
        simp only [hl]
      have hexp : expireKey ((RKey.msgCount user, (⟨1, none⟩ : REntry)) ::
            s.data.filter (fun p => ¬ p.1 = RKey.msgCount user))
            (RKey.msgCount user) window t =
          (RKey.msgCount user, ⟨1, some (t + window)⟩) ::
            ((RKey.msgCount user, (⟨1, none⟩ : REntry)) ::
              s.data.filter (fun p => ¬ p.1 = RKey.msgCount user)).filter
              (fun p => ¬ p.1 = RKey.msgCount user) := by
        unfold expireKey
        rw [lookupLive_consFilter_self]
        simp [REntry.live]
      have htw : t < t + window := by omega
      unfold increment_user_message_count get_user_message_count
      simp only [hup, if_true, hincr, hexp, hl]
      rw [lookupLive_consFilter_self]
      simp [REntry.live, htw]
  | some e =>
      have helive : e.live t = true := lookupLive_live _ _ _ e hl
      have hincr : incr s.data (RKey.msgCount user) t =
          (e.value + 1, (RKey.msgCount user, ⟨e.value + 1, e.expiresAt⟩) ::
            s.data.filter (fun p => ¬ p.1 = RKey.msgCount user)) := by
        unfold incr
        simp only [hl]
      by_cases hv : e.value + 1 = 1
      · have h0 : e.value = 0 := by omega
        have hl1 : (⟨1, e.expiresAt⟩ : REntry).live t = true := helive
        have hexp : expireKey ((RKey.msgCount user, (⟨1, e.expiresAt⟩ : REntry)) ::
              s.data.filter (fun p => ¬ p.1 = RKey.msgCount user))
              (RKey.msgCount user) window t =
            (RKey.msgCount user, ⟨1, some (t + window)⟩) ::
              ((RKey.msgCount user, (⟨1, e.expiresAt⟩ : REntry)) ::
                s.data.filter (fun p => ¬ p.1 = RKey.msgCount user)).filter
                (fun p => ¬ p.1 = RKey.msgCount user) := by
          unfold expireKey
          rw [lookupLive_consFilter_self]
          simp [hl1]
        have htw : t < t + window := by omega
        unfold increment_user_message_count get_user_message_count
        simp only [hup, if_true, hincr, h0, Nat.zero_add, hexp, hl]
        rw [lookupLive_consFilter_self]
        simp [REntry.live, htw]
      · have hl2 : (⟨e.value + 1, e.expiresAt⟩ : REntry).live t = true := helive
        unfold increment_user_message_count get_user_message_count
        simp only [hup, if_true, hincr, if_neg hv, hl]
        rw [lookupLive_consFilter_self]
        simp [hl2]

theorem is_duplicate_message_allowed (s : RedisStore) (t : Nat) (user text mtype : String)
    (hup : s.up = true)
    (hmsg : existsKey s.data (create_message_key user text mtype) t = false)
    (hcd : existsKey s.data (RKey.userCooldown user) t = false) :
    is_duplicate_message s t user text mtype =
      (false, { s with data :=
        (setex (setex s.data (create_message_key user text mtype) MESSAGE_COOLDOWN 1 t)
          (RKey.userCooldown user) USER_COOLDOWN 1 t) }) := by
  unfold is_duplicate_message
  simp [hup, hmsg, hcd]

/-! ## Claim theorems: dedup and rate limiting -/

/-- Claim C9: when the ephemeral store is unreachable, the duplicate /
cooldown check fails open (returns allowed, store untouched), the rate
counter increment returns 1, and the message proceeds to normal
processing rather than being dropped. -/
theorem store_down_fails_open (s : RedisStore) (t : Nat) (user text mtype : String)
    (h : s.up = false) :
    is_duplicate_message s t user text mtype = (false, s) ∧
    increment_user_message_count s t user RATE_LIMIT_WINDOW = (1, s) ∧
    process_whatsapp_message s t user text mtype = (GateResult.processed, s) := by
  refine ⟨?_, ?_, ?_⟩ <;>
    simp [is_duplicate_message, increment_user_message_count, process_whatsapp_message,
      h, RATE_LIMIT_MAX]

/-- Witness for C9 at a concrete unreachable store. -/
theorem store_down_fails_open_witness :
    (RedisStore.mk false []).up = false ∧
    process_whatsapp_message ⟨false, []⟩ 0 "u1" "hello" "text" =
      (GateResult.processed, ⟨false, []⟩) :=
  ⟨rfl, (store_down_fails_open ⟨false, []⟩ 0 "u1" "hello" "text" rfl).2.2⟩

/-- Claim C10: the rate counter expiry is written exactly once, by the
increment whose result equals 1 (the increment that creates the
counter): a missing or expired counter is created with value 1 and
stored expiry exactly `t + window`, while an increment of a live counter
with value at least 1 leaves the stored expiry unchanged — a fixed
window anchored at the first counted message, not a sliding window. -/
theorem rate_counter_fixed_window (s : RedisStore) (t window : Nat) (user : String)
    (hup : s.up = true) :
    (lookupLive s.data (RKey.msgCount user) t = none →
      (increment_user_message_count s t user window).1 = 1 ∧
      (increment_user_message_count s t user window).2.data.find?
          (fun p => p.1 = RKey.msgCount user) =
        some (RKey.msgCount user, ⟨1, some (t + window)⟩)) ∧
    (∀ e : REntry, lookupLive s.data (RKey.msgCount user) t = some e → 1 ≤ e.value →
      (increment_user_message_count s t user window).1 = e.value + 1 ∧
      (increment_user_message_count s t user window).2.data.find?
          (fun p => p.1 = RKey.msgCount user) =
        some (RKey.msgCount user, ⟨e.value + 1, e.expiresAt⟩)) := by
  constructor
  · intro hl
    have hinc : incr s.data (RKey.msgCount user) t =
        (1, (RKey.msgCount user, ⟨1, none⟩) ::
          s.data.filter (fun p => ¬ p.1 = RKey.msgCount user)) := by
      unfold incr
      simp only [hl]
    have hexp : expireKey ((RKey.msgCount user, (⟨1, none⟩ : REntry)) ::
          s.data.filter (fun p => ¬ p.1 = RKey.msgCount user))
          (RKey.msgCount user) window t =
        (RKey.msgCount user, ⟨1, some (t + window)⟩) ::
          ((RKey.msgCount user, (⟨1, none⟩ : REntry)) ::
            s.data.filter (fun p => ¬ p.1 = RKey.msgCount user)).filter
            (fun p => ¬ p.1 = RKey.msgCount user) := by
      unfold expireKey
      rw [lookupLive_consFilter_self]
      simp [REntry.live]
    unfold increment_user_message_count
    simp only [hup, if_true, hinc, hexp]
    simp [List.find?_cons]
  · intro e hl hv
    have hinc : incr s.data (RKey.msgCount user) t =
        (e.value + 1, (RKey.msgCount user, ⟨e.value + 1, e.expiresAt⟩) ::
          s.data.filter (fun p => ¬ p.1 = RKey.msgCount user)) := by
      unfold incr
      simp only [hl]
    have hne1 : ¬ e.value + 1 = 1 := by omega
    unfold increment_user_message_count
    simp only [hup, if_true, hinc, hne1, if_false, if_neg hne1]
    simp [List.find?_cons]

/-- Witness for C10: counter creation at time 7 with window 300 stores
expiry 307; a second increment at time 20 keeps that stored expiry. -/
theorem rate_counter_fixed_window_witness :
    (RedisStore.mk true []).up = true ∧
    lookupLive ([] : List (RKey × REntry)) (RKey.msgCount "u1") 7 = none ∧
    (increment_user_message_count ⟨true, []⟩ 7 "u1" 300).2.data.find?
        (fun p => p.1 = RKey.msgCount "u1") =
      some (RKey.msgCount "u1", ⟨1, some 307⟩) ∧
    (RedisStore.mk true [(RKey.msgCount "u1", ⟨1, some 307⟩)]).up = true ∧
    lookupLive [(RKey.msgCount "u1", (⟨1, some 307⟩ : REntry))] (RKey.msgCount "u1") 20 =
      some ⟨1, some 307⟩ ∧
    (increment_user_message_count ⟨true, [(RKey.msgCount "u1", ⟨1, some 307⟩)]⟩ 20 "u1" 300).2.data.find?
        (fun p => p.1 = RKey.msgCount "u1") =
      some (RKey.msgCount "u1", ⟨2, some 307⟩) := by
  refine ⟨rfl, by decide, ?_, rfl, by decide, ?_⟩
  · exact ((rate_counter_fixed_window ⟨true, []⟩ 7 300 "u1" rfl).1 (by decide)).2
  · exact ((rate_counter_fixed_window ⟨true, [(RKey.msgCount "u1", ⟨1, some 307⟩)]⟩
      20 300 "u1" rfl).2 ⟨1, some 307⟩ (by decide) (by decide)).2

/-- Claim C2: with a reachable store, a first message whose fingerprint
and sender cooldown are absent is allowed and creates both records; the
same (sender, type, normalised text) re-checked while the dedup record
is live is denied with no store change, and at the gate level the first
delivery is processed while the second is ignored — exactly one
downstream side effect. -/
theorem duplicate_message_single_side_effect (s : RedisStore) (t t2 : Nat)
    (user text mtype : String)
    (hup : s.up = true)
    (hmsg : existsKey s.data (create_message_key user text mtype) t = false)
    (hcd : existsKey s.data (RKey.userCooldown user) t = false)
    (hcount : get_user_message_count s t user < RATE_LIMIT_MAX)
    (ht2 : t2 < t + MESSAGE_COOLDOWN) :
    (is_duplicate_message s t user text mtype).1 = false ∧
    existsKey (is_duplicate_message s t user text mtype).2.data
      (create_message_key user text mtype) t2 = true ∧
    existsKey (is_duplicate_message s t user text mtype).2.data
      (RKey.userCooldown user) t = true ∧
    is_duplicate_message (is_duplicate_message s t user text mtype).2 t2 user text mtype =
      (true, (is_duplicate_message s t user text mtype).2) ∧
    (process_whatsapp_message s t user text mtype).1 = GateResult.processed ∧
    process_whatsapp_message (process_whatsapp_message s t user text mtype).2 t2
        user text mtype =
      (GateResult.ignored, (process_whatsapp_message s t user text mtype).2) ∧
    (∀ s2 : RedisStore, s2.up = true →
      existsKey s2.data (create_message_key user text mtype) t = true →
      is_duplicate_message s2 t user text mtype = (true, s2)) ∧
    (∀ s2 : RedisStore, s2.up = true →
      existsKey s2.data (create_message_key user text mtype) t = false →
      existsKey s2.data (RKey.userCooldown user) t = true →
      is_duplicate_message s2 t user text mtype = (true, s2)) := by
  have hkck : ¬ (RKey.userCooldown user) = create_message_key user text mtype := by
    simp [create_message_key]
  have hknk : ¬ (RKey.msgCount user) = create_message_key user text mtype := by
    simp [create_message_key]
  have hcknk : ¬ (RKey.msgCount user) = RKey.userCooldown user := by simp
  have hmkck : ¬ create_message_key user text mtype = RKey.userCooldown user := by
    simp [create_message_key]
  have hmknk : ¬ create_message_key user text mtype = RKey.msgCount user := by
    simp [create_message_key]
  have hdup1 := is_duplicate_message_allowed s t user text mtype hup hmsg hcd
  have hq : lookupLive (setex (setex s.data (create_message_key user text mtype)
        MESSAGE_COOLDOWN 1 t) (RKey.userCooldown user) USER_COOLDOWN 1 t)
      (create_message_key user text mtype) t2 =
      some ⟨1, some (t + MESSAGE_COOLDOWN)⟩ := by
    rw [lookupLive_setex_ne _ _ _ _ _ _ _ hmkck, lookupLive_setex_self]
    simp [ht2]
  have hqcd : lookupLive (setex (setex s.data (create_message_key user text mtype)
        MESSAGE_COOLDOWN 1 t) (RKey.userCooldown user) USER_COOLDOWN 1 t)
      (RKey.userCooldown user) t = some ⟨1, some (t + USER_COOLDOWN)⟩ := by
    rw [lookupLive_setex_self]
    simp [USER_COOLDOWN]
  have hcnt : lookupLive (setex (setex s.data (create_message_key user text mtype)
        MESSAGE_COOLDOWN 1 t) (RKey.userCooldown user) USER_COOLDOWN 1 t)
      (RKey.msgCount user) t = lookupLive s.data (RKey.msgCount user) t := by
    rw [lookupLive_setex_ne _ _ _ _ _ _ _ hcknk, lookupLive_setex_ne _ _ _ _ _ _ _ hknk]
  have hdup2 : is_duplicate_message
      (⟨s.up, setex (setex s.data (create_message_key user text mtype) MESSAGE_COOLDOWN 1 t)
        (RKey.userCooldown user) USER_COOLDOWN 1 t⟩ : RedisStore) t2 user text mtype =
      (true, ⟨s.up, setex (setex s.data (create_message_key user text mtype)
        MESSAGE_COOLDOWN 1 t) (RKey.userCooldown user) USER_COOLDOWN 1 t⟩) := by
    unfold is_duplicate_message
    simp [hup, existsKey, hq]
  have hrle : (incr (setex (setex s.data (create_message_key user text mtype)
        MESSAGE_COOLDOWN 1 t) (RKey.userCooldown user) USER_COOLDOWN 1 t)
      (RKey.msgCount user) t).1 ≤ RATE_LIMIT_MAX := by
    unfold incr
    rw [hcnt]
    cases hl : lookupLive s.data (RKey.msgCount user) t with
    | none => simp [RATE_LIMIT_MAX]
    | some e =>
        have hce : get_user_message_count s t user = e.value := by
          unfold get_user_message_count
          simp [hup, hl]
        rw [hce] at hcount
        simpa using hcount
  have hincval : (increment_user_message_count
      (⟨s.up, setex (setex s.data (create_message_key user text mtype) MESSAGE_COOLDOWN 1 t)
        (RKey.userCooldown user) USER_COOLDOWN 1 t⟩ : RedisStore) t user RATE_LIMIT_WINDOW).1 =
      (incr (setex (setex s.data (create_message_key user text mtype) MESSAGE_COOLDOWN 1 t)
        (RKey.userCooldown user) USER_COOLDOWN 1 t) (RKey.msgCount user) t).1 := by
    unfold increment_user_message_count
    simp [hup]
  have hincup : (increment_user_message_count
      (⟨s.up, setex (setex s.data (create_message_key user text mtype) MESSAGE_COOLDOWN 1 t)
        (RKey.userCooldown user) USER_COOLDOWN 1 t⟩ : RedisStore) t user RATE_LIMIT_WINDOW).2.up =
      true := by
    unfold increment_user_message_count
    simp [hup]
  have hincdata : (increment_user_message_count
      (⟨s.up, setex (setex s.data (create_message_key user text mtype) MESSAGE_COOLDOWN 1 t)
        (RKey.userCooldown user) USER_COOLDOWN 1 t⟩ : RedisStore) t user RATE_LIMIT_WINDOW).2.data =
      (if (incr (setex (setex s.data (create_message_key user text mtype) MESSAGE_COOLDOWN 1 t)
          (RKey.userCooldown user) USER_COOLDOWN 1 t) (RKey.msgCount user) t).1 = 1
       then expireKey (incr (setex (setex s.data (create_message_key user text mtype)
          MESSAGE_COOLDOWN 1 t) (RKey.userCooldown user) USER_COOLDOWN 1 t)
          (RKey.msgCount user) t).2 (RKey.msgCount user) RATE_LIMIT_WINDOW t
       else (incr (setex (setex s.data (create_message_key user text mtype)
          MESSAGE_COOLDOWN 1 t) (RKey.userCooldown user) USER_COOLDOWN 1 t)
          (RKey.msgCount user) t).2) := by
    unfold increment_user_message_count
    simp [hup]
  have hlook3 : lookupLive (increment_user_message_count
      (⟨s.up, setex (setex s.data (create_message_key user text mtype) MESSAGE_COOLDOWN 1 t)
        (RKey.userCooldown user) USER_COOLDOWN 1 t⟩ : RedisStore) t user RATE_LIMIT_WINDOW).2.data
      (create_message_key user text mtype) t2 =
      some ⟨1, some (t + MESSAGE_COOLDOWN)⟩ := by
    rw [hincdata]
    by_cases h1 : (incr (setex (setex s.data (create_message_key user text mtype)
        MESSAGE_COOLDOWN 1 t) (RKey.userCooldown user) USER_COOLDOWN 1 t)
        (RKey.msgCount user) t).1 = 1
    · rw [if_pos h1, lookupLive_expireKey_ne _ _ _ _ _ _ hmknk,
        lookupLive_incr_ne _ _ _ _ _ hmknk, hq]
    · rw [if_neg h1, lookupLive_incr_ne _ _ _ _ _ hmknk, hq]
  have hproc1 : process_whatsapp_message s t user text mtype =
      (GateResult.processed, (increment_user_message_count
        (⟨s.up, setex (setex s.data (create_message_key user text mtype) MESSAGE_COOLDOWN 1 t)
          (RKey.userCooldown user) USER_COOLDOWN 1 t⟩ : RedisStore) t user RATE_LIMIT_WINDOW).2) := by
    unfold process_whatsapp_message
    rw [hdup1]
    simp only [Bool.false_eq_true, if_false]
    rw [if_neg (by rw [hincval]; omega)]
  have hdup3 : is_duplicate_message (increment_user_message_count
      (⟨s.up, setex (setex s.data (create_message_key user text mtype) MESSAGE_COOLDOWN 1 t)
        (RKey.userCooldown user) USER_COOLDOWN 1 t⟩ : RedisStore) t user RATE_LIMIT_WINDOW).2
      t2 user text mtype =
      (true, (increment_user_message_count
        (⟨s.up, setex (setex s.data (create_message_key user text mtype) MESSAGE_COOLDOWN 1 t)
          (RKey.userCooldown user) USER_COOLDOWN 1 t⟩ : RedisStore) t user RATE_LIMIT_WINDOW).2) := by
    unfold is_duplicate_message
    simp [hincup, existsKey, hlook3]
  refine ⟨by rw [hdup1], ?_, ?_, ?_, by rw [hproc1], ?_, ?_, ?_⟩
  · rw [hdup1]
    simp [existsKey, hq]
  · rw [hdup1]
    simp [existsKey, hqcd]
  · rw [hdup1]
    exact hdup2
  · rw [hproc1]
    unfold process_whatsapp_message
    rw [hdup3]
    simp
  · intro s2 hup2 hx
    unfold is_duplicate_message
    simp [hup2, hx]
  · intro s2 hup2 hx hcd2
    unfold is_duplicate_message
    simp [hup2, hx, hcd2]

/-- Witness for C2 on a concrete empty store: first delivery of
a message at time 0 is processed, re-delivery at time 5 is denied and
ignored. -/
theorem duplicate_message_single_side_effect_witness :
    ((RedisStore.mk true []).up = true ∧
      existsKey ([] : List (RKey × REntry)) (create_message_key "u1" " Hello " "text") 0 = false ∧
      existsKey ([] : List (RKey × REntry)) (RKey.userCooldown "u1") 0 = false ∧
      get_user_message_count ⟨true, []⟩ 0 "u1" < RATE_LIMIT_MAX ∧
      5 < 0 + MESSAGE_COOLDOWN) ∧
    (process_whatsapp_message ⟨true, []⟩ 0 "u1" " Hello " "text").1 = GateResult.processed ∧
    process_whatsapp_message (process_whatsapp_message ⟨true, []⟩ 0 "u1" " Hello " "text").2 5
        "u1" " Hello " "text" =
      (GateResult.ignored, (process_whatsapp_message ⟨true, []⟩ 0 "u1" " Hello " "text").2) := by
  have h := duplicate_message_single_side_effect ⟨true, []⟩ 0 5 "u1" " Hello " "text"
    rfl (by decide) (by decide) (by decide) (by decide)
  exact ⟨⟨rfl, by decide, by decide, by decide, by decide⟩, h.2.2.2.2.1, h.2.2.2.2.2.1⟩

theorem gate_count_step (s : RedisStore) (t : Nat) (user text mtype : String)
    (hup : s.up = true)
    (hmsg : existsKey s.data (create_message_key user text mtype) t = false)
    (hcd : existsKey s.data (RKey.userCooldown user) t = false) :
    (process_whatsapp_message s t user text mtype).1 =
      (if RATE_LIMIT_MAX < get_user_message_count s t user + 1
       then GateResult.rateLimited (get_user_message_count s t user + 1)
       else GateResult.processed) ∧
    get_user_message_count (process_whatsapp_message s t user text mtype).2 t user =
      get_user_message_count s t user + 1 := by
  have hknk : ¬ (RKey.msgCount user) = create_message_key user text mtype := by
    simp [create_message_key]
  have hcknk : ¬ (RKey.msgCount user) = RKey.userCooldown user := by simp
  have hdup1 := is_duplicate_message_allowed s t user text mtype hup hmsg hcd
  have hcnt : lookupLive (setex (setex s.data (create_message_key user text mtype)
        MESSAGE_COOLDOWN 1 t) (RKey.userCooldown user) USER_COOLDOWN 1 t)
      (RKey.msgCount user) t = lookupLive s.data (RKey.msgCount user) t := by
    rw [lookupLive_setex_ne _ _ _ _ _ _ _ hcknk, lookupLive_setex_ne _ _ _ _ _ _ _ hknk]
  have hgeq : get_user_message_count
      ({ s with data := (setex (setex s.data (create_message_key user text mtype)
        MESSAGE_COOLDOWN 1 t) (RKey.userCooldown user) USER_COOLDOWN 1 t) } : RedisStore)
      t user = get_user_message_count s t user := by
    unfold get_user_message_count
    simp only [hup, if_true]
    rw [hcnt]
  have hia := get_after_increment
    ({ s with data := (setex (setex s.data (create_message_key user text mtype)
      MESSAGE_COOLDOWN 1 t) (RKey.userCooldown user) USER_COOLDOWN 1 t) } : RedisStore)
    t RATE_LIMIT_WINDOW user (by simp [hup]) (by norm_num [RATE_LIMIT_WINDOW])
  rw [hgeq] at hia
  have hproc : process_whatsapp_message s t user text mtype =
      (if RATE_LIMIT_MAX < get_user_message_count s t user + 1
       then GateResult.rateLimited (get_user_message_count s t user + 1)
       else GateResult.processed,
       (increment_user_message_count
         ({ s with data := (setex (setex s.data (create_message_key user text mtype)
           MESSAGE_COOLDOWN 1 t) (RKey.userCooldown user) USER_COOLDOWN 1 t) } : RedisStore)
         t user RATE_LIMIT_WINDOW).2) := by
    unfold process_whatsapp_message
    simp only [hdup1, Bool.false_eq_true, if_false]
    rw [hia.1]
    by_cases hb : RATE_LIMIT_MAX < get_user_message_count s t user + 1
    · simp [hb]
    · simp [hb]
  exact ⟨by rw [hproc], by rw [hproc]; exact hia.2⟩

/-- Claim C4: the per-sender counter increments on every message that
passes the duplicate / cooldown check, and the message is routed to the
rate-limited branch exactly when the incremented count exceeds
`RATE_LIMIT_MAX`, the counter continuing to count; in particular a run
of `RATE_LIMIT_MAX + 1` distinct, spaced messages inside the window gets
its first five processed and its sixth rate limited with count 6. -/
theorem rate_limit_routes_after_max :
    (∀ (s : RedisStore) (t : Nat) (user text mtype : String),
      s.up = true →
      (is_duplicate_message s t user text mtype).1 = false →
      (process_whatsapp_message s t user text mtype).1 =
        (if RATE_LIMIT_MAX < get_user_message_count s t user + 1
         then GateResult.rateLimited (get_user_message_count s t user + 1)
         else GateResult.processed) ∧
      get_user_message_count (process_whatsapp_message s t user text mtype).2 t user =
        get_user_message_count s t user + 1) ∧
    (∀ user : String,
      (runGate ⟨true, []⟩ user "text"
        [(0, "m0"), (11, "m1"), (22, "m2"), (33, "m3"), (44, "m4"), (55, "m5")]).1 =
      [GateResult.processed, GateResult.processed, GateResult.processed,
       GateResult.processed, GateResult.processed, GateResult.rateLimited 6]) := by
  constructor
  · intro s t user text mtype hup hpass
    cases hm : existsKey s.data (create_message_key user text mtype) t with
    | true =>
        exfalso
        unfold is_duplicate_message at hpass
        simp [hup, hm] at hpass
    | false =>
        cases hc : existsKey s.data (RKey.userCooldown user) t with
        | true =>
            exfalso
            unfold is_duplicate_message at hpass
            simp [hup, hm, hc] at hpass
        | false => exact gate_count_step s t user text mtype hup hm hc
  · intro user
    simp +decide [runGate, process_whatsapp_message, is_duplicate_message,
      increment_user_message_count, existsKey, lookupLive, setex, incr, expireKey,
      create_message_key, MESSAGE_COOLDOWN, USER_COOLDOWN,
      RATE_LIMIT_WINDOW, RATE_LIMIT_MAX, REntry.live, List.find?_cons, List.filter_cons,
      show normalizeText "m0" = "m0" by decide, show normalizeText "m1" = "m1" by decide,
      show normalizeText "m2" = "m2" by decide, show normalizeText "m3" = "m3" by decide,
      show normalizeText "m4" = "m4" by decide, show normalizeText "m5" = "m5" by decide]

/-- Witness for C4: a concrete first allowed message on an empty store is
processed with count 1, and the six-message run for a concrete sender
ends rate limited. -/
theorem rate_limit_routes_after_max_witness :
    ((RedisStore.mk true []).up = true ∧
      (is_duplicate_message ⟨true, []⟩ 0 "u1" "hi" "text").1 = false) ∧
    (process_whatsapp_message ⟨true, []⟩ 0 "u1" "hi" "text").1 =
      (if RATE_LIMIT_MAX < get_user_message_count ⟨true, []⟩ 0 "u1" + 1
       then GateResult.rateLimited (get_user_message_count ⟨true, []⟩ 0 "u1" + 1)
       else GateResult.processed) ∧
    (runGate ⟨true, []⟩ "u1" "text"
        [(0, "m0"), (11, "m1"), (22, "m2"), (33, "m3"), (44, "m4"), (55, "m5")]).1 =
      [GateResult.processed, GateResult.processed, GateResult.processed,
       GateResult.processed, GateResult.processed, GateResult.rateLimited 6] :=
  ⟨⟨rfl, by decide⟩,
   (rate_limit_routes_after_max.1 ⟨true, []⟩ 0 "u1" "hi" "text" rfl (by decide)).1,
   rate_limit_routes_after_max.2 "u1"⟩

/-! ## Claim theorems: conversation state -/

theorem get_set_user_state (number stage : String) (data : List (String × String))
    (t t2 : Nat) :
    get_user_state (set_user_state number stage data t) t2 =
      (if t2 < t + STATE_TIMEOUT then
        (if STATE_TIMEOUT < t2 - t then none else some ⟨stage, number, t, t, data⟩)
       else none) := rfl

/-- Counterexample to claim C3 as stated: a state originally created at
time 0 undergoes a successful transition at time 1500 (a valid area),
and a get at time 1900 — more than the 30-minute `STATE_TIMEOUT` after
the original creation — still returns the state, because
`set_user_state` re-anchors `created_at` (and the key TTL) at every
transition. -/
theorem state_absolute_expiry_cex :
    STATE_TIMEOUT < 1900 - 0 ∧
    (get_user_state ((handle_signup_flow_area
        (set_user_state "u1" STATE_COLLECTING_AREA [] 0) 1500 "u1" "ancoats"
        ⟨STATE_COLLECTING_AREA, "u1", 0, 0, []⟩).1) 1900) =
      some ⟨STATE_COLLECTING_GROUP_TYPE, "u1", 1500, 1500, []⟩ := by decide

/-- Claim C3 (amended): a successful extraction advances the state by
rewriting the whole record with `created_at = updated_at =` the
transition time, so the 30-minute expiry is re-anchored at each
successful transition: a get succeeds exactly when it happens within
`STATE_TIMEOUT` of the most recent `set_user_state`, independently of
the original creation time. -/
theorem state_expiry_from_last_set (number stage : String)
    (data : List (String × String)) (t t2 : Nat) (store : UStore)
    (msg : String) (st : UserState) :
    ((extract_area_from_message msg).isSome = true →
      (handle_signup_flow_area store t number msg st).1 =
        set_user_state number STATE_COLLECTING_GROUP_TYPE st.data t) ∧
    (t2 < t + STATE_TIMEOUT →
      get_user_state (set_user_state number stage data t) t2 =
        some ⟨stage, number, t, t, data⟩) ∧
    (t + STATE_TIMEOUT ≤ t2 →
      get_user_state (set_user_state number stage data t) t2 = none) := by
  refine ⟨?_, ?_, ?_⟩
  · intro hx
    cases he : extract_area_from_message msg with
    | none => rw [he] at hx; cases hx
    | some area =>
        unfold handle_signup_flow_area
        rw [he]
  · intro h
    rw [get_set_user_state, if_pos h, if_neg (by omega)]
  · intro h
    rw [get_set_user_state, if_neg (by omega)]

/-- Witness for C3 (amended) at concrete inputs: a transition at time
1500 is readable at 1900 and gone at 3300. -/
theorem state_expiry_from_last_set_witness :
    ((extract_area_from_message "ancoats").isSome = true ∧ 1900 < 1500 + STATE_TIMEOUT ∧
      1500 + STATE_TIMEOUT ≤ 3300) ∧
    (handle_signup_flow_area (set_user_state "u1" STATE_COLLECTING_AREA [] 0) 1500 "u1"
        "ancoats" ⟨STATE_COLLECTING_AREA, "u1", 0, 0, []⟩).1 =
      set_user_state "u1" STATE_COLLECTING_GROUP_TYPE [] 1500 ∧
    get_user_state (set_user_state "u1" STATE_COLLECTING_GROUP_TYPE [] 1500) 1900 =
      some ⟨STATE_COLLECTING_GROUP_TYPE, "u1", 1500, 1500, []⟩ ∧
    get_user_state (set_user_state "u1" STATE_COLLECTING_GROUP_TYPE [] 1500) 3300 = none :=
  ⟨⟨by decide, by decide, by decide⟩,
   (state_expiry_from_last_set "u1" STATE_COLLECTING_GROUP_TYPE [] 1500 1900
     (set_user_state "u1" STATE_COLLECTING_AREA [] 0) "ancoats"
     ⟨STATE_COLLECTING_AREA, "u1", 0, 0, []⟩).1 (by decide),
   (state_expiry_from_last_set "u1" STATE_COLLECTING_GROUP_TYPE [] 1500 1900
     (set_user_state "u1" STATE_COLLECTING_AREA [] 0) "ancoats"
     ⟨STATE_COLLECTING_AREA, "u1", 0, 0, []⟩).2.1 (by decide),
   (state_expiry_from_last_set "u1" STATE_COLLECTING_GROUP_TYPE [] 1500 3300
     (set_user_state "u1" STATE_COLLECTING_AREA [] 0) "ancoats"
     ⟨STATE_COLLECTING_AREA, "u1", 0, 0, []⟩).2.2 (by decide)⟩

/-- Counterexample to claim C5 as stated: on an unrecognized area the
handler leaves the store unchanged but the re-prompt it sends is the
`signup_area_invalid` template, which is not the `signup_start` prompt
that was sent on entering the stage. -/
theorem collecting_area_invalid_prompt_cex :
    (handle_signup_flow_area (set_user_state "u1" STATE_COLLECTING_AREA [] 0) 5 "u1" "xyz"
        ⟨STATE_COLLECTING_AREA, "u1", 0, 0, []⟩).1 =
      set_user_state "u1" STATE_COLLECTING_AREA [] 0 ∧
    ¬ (handle_signup_flow_area (set_user_state "u1" STATE_COLLECTING_AREA [] 0) 5 "u1" "xyz"
        ⟨STATE_COLLECTING_AREA, "u1", 0, 0, []⟩).2 =
      (start_signup_flow "u1" 0).2 := by decide

/-- Claim C5 (amended): in `COLLECTING_AREA` an unrecognized message
leaves the stored state completely unchanged and re-sends the fixed
`signup_area_invalid` re-prompt listing the valid areas — identical
across retries but different from the `signup_start` prompt sent on
entering the stage; a recognized area stores the
`COLLECTING_GROUP_TYPE` stage exactly once. -/
theorem collecting_area_frame (store : UStore) (t : Nat) (number msg : String)
    (st : UserState) :
    (extract_area_from_message msg = none →
      handle_signup_flow_area store t number msg st =
        (store, response_signup_area_invalid get_formatted_areas)) ∧
    (∀ area, extract_area_from_message msg = some area →
      (handle_signup_flow_area store t number msg st).1 =
        set_user_state number STATE_COLLECTING_GROUP_TYPE st.data t ∧
      ∀ t2, t2 < t + STATE_TIMEOUT →
        (get_user_state (handle_signup_flow_area store t number msg st).1 t2).map
            (fun u => u.state) = some STATE_COLLECTING_GROUP_TYPE) ∧
    ¬ response_signup_area_invalid get_formatted_areas =
        response_signup_start get_formatted_areas := by
  refine ⟨?_, ?_, by decide⟩
  · intro he
    unfold handle_signup_flow_area
    rw [he]
  · intro area he
    have hh : (handle_signup_flow_area store t number msg st).1 =
        set_user_state number STATE_COLLECTING_GROUP_TYPE st.data t := by
      unfold handle_signup_flow_area
      rw [he]
    refine ⟨hh, ?_⟩
    intro t2 ht2
    rw [hh, get_set_user_state, if_pos ht2, if_neg (by omega)]
    rfl

/-- Witness for C5 (amended) at concrete inputs: an unrecognized message
changes nothing, and a recognized one stores the next stage. -/
theorem collecting_area_frame_witness :
    (extract_area_from_message "xyz" = none ∧
      extract_area_from_message "Deansgate it is" = some "deansgate" ∧
      6 < 5 + STATE_TIMEOUT) ∧
    handle_signup_flow_area (set_user_state "u1" STATE_COLLECTING_AREA [] 0) 5 "u1" "xyz"
        ⟨STATE_COLLECTING_AREA, "u1", 0, 0, []⟩ =
      (set_user_state "u1" STATE_COLLECTING_AREA [] 0,
       response_signup_area_invalid get_formatted_areas) ∧
    (get_user_state (handle_signup_flow_area (set_user_state "u1" STATE_COLLECTING_AREA [] 0)
        5 "u1" "Deansgate it is" ⟨STATE_COLLECTING_AREA, "u1", 0, 0, []⟩).1 6).map
        (fun u => u.state) = some STATE_COLLECTING_GROUP_TYPE :=
  ⟨⟨by decide, by decide, by decide⟩,
   (collecting_area_frame (set_user_state "u1" STATE_COLLECTING_AREA [] 0) 5 "u1" "xyz"
     ⟨STATE_COLLECTING_AREA, "u1", 0, 0, []⟩).1 (by decide),
   ((collecting_area_frame (set_user_state "u1" STATE_COLLECTING_AREA [] 0) 5 "u1"
     "Deansgate it is" ⟨STATE_COLLECTING_AREA, "u1", 0, 0, []⟩).2.1 "deansgate"
     (by decide)).2 6 (by decide)⟩

/-! ## Claim theorems: group matching and lifecycle -/

/-- Claim C1, evaluated at the failing schedule: two `find_group` calls
race on a forming group with 4 of 5 members (one remaining slot).  Both
read phases observe 4 members and pick the same join target; both write
phases then commit.  The second commit succeeds although the group
already holds `max_members` members at that moment (its stored counter
is 5, not less than 5), and the group ends with 6 membership rows
against a capacity of 5 — the stored counter itself is stuck at 5 by
the lost update.  The source join is a plain read-then-increment with no
conditional update or serializable transaction, so the claimed atomic
check-and-increment (exactly `r` of the concurrent calls joining) does
not hold. -/
theorem find_group_join_race :
    find_group_read ⟨[⟨1, "centre", GroupStatus.forming, 5, 4, none, none, none⟩],
        [⟨1, 1, true⟩, ⟨1, 2, false⟩, ⟨1, 3, false⟩, ⟨1, 4, false⟩], [], []⟩ 5 "centre" =
      FGRead.joinTarget 1 4 5 ∧
    find_group_read ⟨[⟨1, "centre", GroupStatus.forming, 5, 4, none, none, none⟩],
        [⟨1, 1, true⟩, ⟨1, 2, false⟩, ⟨1, 3, false⟩, ⟨1, 4, false⟩], [], []⟩ 6 "centre" =
      FGRead.joinTarget 1 4 5 ∧
    (((find_group_write ⟨[⟨1, "centre", GroupStatus.forming, 5, 4, none, none, none⟩],
        [⟨1, 1, true⟩, ⟨1, 2, false⟩, ⟨1, 3, false⟩, ⟨1, 4, false⟩], [], []⟩ 5 "centre"
        (FGRead.joinTarget 1 4 5)).1.groups.find? (fun g => g.id = 1)).map
        (fun g => g.current_members)) = some 5 ∧
    (find_group_write (find_group_write ⟨[⟨1, "centre", GroupStatus.forming, 5, 4, none, none, none⟩],
        [⟨1, 1, true⟩, ⟨1, 2, false⟩, ⟨1, 3, false⟩, ⟨1, 4, false⟩], [], []⟩ 5 "centre"
        (FGRead.joinTarget 1 4 5)).1 6 "centre" (FGRead.joinTarget 1 4 5)).2 =
      FindGroupResult.joined 1 true ∧
    membersOf (find_group_write (find_group_write ⟨[⟨1, "centre", GroupStatus.forming, 5, 4, none, none, none⟩],
        [⟨1, 1, true⟩, ⟨1, 2, false⟩, ⟨1, 3, false⟩, ⟨1, 4, false⟩], [], []⟩ 5 "centre"
        (FGRead.joinTarget 1 4 5)).1 6 "centre" (FGRead.joinTarget 1 4 5)).1 1 = 6 ∧
    (((find_group_write (find_group_write ⟨[⟨1, "centre", GroupStatus.forming, 5, 4, none, none, none⟩],
        [⟨1, 1, true⟩, ⟨1, 2, false⟩, ⟨1, 3, false⟩, ⟨1, 4, false⟩], [], []⟩ 5 "centre"
        (FGRead.joinTarget 1 4 5)).1 6 "centre" (FGRead.joinTarget 1 4 5)).1.groups.find?
        (fun g => g.id = 1)).map (fun g => (g.current_members, g.max_members))) =
      some (5, 5) := by decide

theorem end_group_groups (d : Db) (t gid : Nat) :
    (end_group d t gid).groups = d.groups.map (endGroupUpdate t gid) := by
  unfold end_group
  cases hf : d.groups.find? (fun g => g.id = gid) with
  | some g =>
      simp only [hf]
      rfl
  | none =>
      simp only [hf]
      have hnone : ∀ g ∈ d.groups, endGroupUpdate t gid g = g := by
        intro g hgmem
        unfold endGroupUpdate
        rw [if_neg]
        intro hh
        have hx := List.find?_eq_none.mp hf g hgmem
        simp at hx
        exact hx hh
      calc d.groups = d.groups.map id := by rw [List.map_id]
        _ = d.groups.map (endGroupUpdate t gid) := by
              apply List.map_congr_left
              intro g hgmem
              rw [hnone g hgmem]
              rfl

theorem completeGroup_idem (t : Nat) (g : CrawlGroup) :
    completeGroup t (completeGroup t g) = completeGroup t g := rfl

theorem foldl_end_group_groups (t : Nat) (L : List CrawlGroup) :
    ∀ d : Db, ((L.foldl (fun d2 g => end_group d2 t g.id) d).groups) =
      d.groups.map (fun g =>
        if L.any (fun h2 => h2.id = g.id) then completeGroup t g else g) := by
  induction L with
  | nil =>
      intro d
      simp
  | cons a L ih =>
      intro d
      rw [List.foldl_cons, ih (end_group d t a.id), end_group_groups, List.map_map]
      apply List.map_congr_left
      intro g hgmem
      simp only [Function.comp, List.any_cons]
      by_cases h1 : a.id = g.id
      · have hup : endGroupUpdate t a.id g = completeGroup t g := by
          unfold endGroupUpdate
          rw [if_pos h1.symm]
        rw [hup]
        have hid : (completeGroup t g).id = g.id := rfl
        by_cases h2 : L.any (fun h2 => h2.id = g.id)
        · rw [if_pos (by rw [hid]; exact h2), if_pos (by simp [h1, h2]), completeGroup_idem]
        · rw [if_neg (by rw [hid]; exact h2), if_pos (by simp [h1])]
      · have hup : endGroupUpdate t a.id g = g := by
          unfold endGroupUpdate
          rw [if_neg (fun hh => h1 hh.symm)]
        rw [hup]
        by_cases h2 : L.any (fun h2 => h2.id = g.id)
        · rw [if_pos h2, if_pos (by simp [h2])]
        · rw [if_neg h2, if_neg (by simp [h2, h1])]

/-- Claim C8: the daily sweep completes every forming or active group,
leaves no group that its `active` filter would still select, and running
it a second time immediately afterwards is the identity on the store —
each group is ended exactly once and the second pass touches (and can
fail on) nothing. -/
theorem daily_cleanup_idempotent (db : Db) (t t2 : Nat) :
    (∀ g ∈ db.groups, (g.status = GroupStatus.forming ∨ g.status = GroupStatus.active) →
      ∀ g2 ∈ (daily_cleanup db t).groups, g2.id = g.id →
        g2.status = GroupStatus.completed) ∧
    get_groups_filter_active (daily_cleanup db t) = [] ∧
    daily_cleanup (daily_cleanup db t) t2 = daily_cleanup db t := by
  have hch : (daily_cleanup db t).groups = db.groups.map (fun g =>
      if (get_groups_filter_active db).any (fun h2 => h2.id = g.id)
      then completeGroup t g else g) :=
    foldl_end_group_groups t (get_groups_filter_active db) db
  have hmem : ∀ g2 ∈ (daily_cleanup db t).groups,
      g2.status = GroupStatus.completed ∨
      (∃ g0 ∈ db.groups, g2 = g0 ∧
        ¬ (g0.status = GroupStatus.forming ∨ g0.status = GroupStatus.active)) := by
    intro g2 hg2
    rw [hch] at hg2
    obtain ⟨g0, hg0mem, hg0eq⟩ := List.mem_map.mp hg2
    by_cases hany : (get_groups_filter_active db).any (fun h2 => h2.id = g0.id)
    · left
      rw [if_pos hany] at hg0eq
      rw [← hg0eq]
      rfl
    · right
      rw [if_neg hany] at hg0eq
      refine ⟨g0, hg0mem, hg0eq.symm, ?_⟩
      intro hfa
      apply hany
      have : g0 ∈ get_groups_filter_active db := by
        unfold get_groups_filter_active
        rw [List.mem_filter]
        exact ⟨hg0mem, by simpa using hfa⟩
      exact List.any_eq_true.mpr ⟨g0, this, by simp⟩
  have hempty : get_groups_filter_active (daily_cleanup db t) = [] := by
    unfold get_groups_filter_active
    rw [List.filter_eq_nil_iff]
    intro g2 hg2
    rcases hmem g2 hg2 with hc | ⟨g0, _, heq, hnfa⟩
    · simp [hc]
    · rw [heq]
      simpa using hnfa
  refine ⟨?_, hempty, ?_⟩
  · intro g hgmem hgfa g2 hg2mem hid
    rw [hch] at hg2mem
    obtain ⟨g0, hg0mem, hg0eq⟩ := List.mem_map.mp hg2mem
    by_cases hany : (get_groups_filter_active db).any (fun h2 => h2.id = g0.id)
    · rw [if_pos hany] at hg0eq
      rw [← hg0eq]
      rfl
    · exfalso
      rw [if_neg hany] at hg0eq
      apply hany
      have hgin : g ∈ get_groups_filter_active db := by
        unfold get_groups_filter_active
        rw [List.mem_filter]
        exact ⟨hgmem, by simpa using hgfa⟩
      refine List.any_eq_true.mpr ⟨g, hgin, ?_⟩
      simp only [decide_eq_true_eq]
      rw [← hid, hg0eq]
  · have hx : daily_cleanup (daily_cleanup db t) t2 =
        (get_groups_filter_active (daily_cleanup db t)).foldl
          (fun d g => end_group d t2 g.id) (daily_cleanup db t) := rfl
    rw [hx, hempty]
    rfl

/-- Witness for C8 on a concrete store: one active and one cancelled
group; after the sweep the active group is completed and the second
sweep is the identity. -/
theorem daily_cleanup_idempotent_witness :
    (⟨1, "a", GroupStatus.active, 5, 3, none, none, none⟩ : CrawlGroup) ∈
      (⟨[⟨1, "a", GroupStatus.active, 5, 3, none, none, none⟩,
         ⟨2, "a", GroupStatus.cancelled, 5, 1, none, none, none⟩], [], [], []⟩ : Db).groups ∧
    (∀ g2 ∈ (daily_cleanup ⟨[⟨1, "a", GroupStatus.active, 5, 3, none, none, none⟩,
         ⟨2, "a", GroupStatus.cancelled, 5, 1, none, none, none⟩], [], [], []⟩ 100).groups,
      g2.id = 1 → g2.status = GroupStatus.completed) ∧
    daily_cleanup (daily_cleanup ⟨[⟨1, "a", GroupStatus.active, 5, 3, none, none, none⟩,
         ⟨2, "a", GroupStatus.cancelled, 5, 1, none, none, none⟩], [], [], []⟩ 100) 200 =
      daily_cleanup ⟨[⟨1, "a", GroupStatus.active, 5, 3, none, none, none⟩,
         ⟨2, "a", GroupStatus.cancelled, 5, 1, none, none, none⟩], [], [], []⟩ 100 :=
  ⟨by decide,
   (daily_cleanup_idempotent ⟨[⟨1, "a", GroupStatus.active, 5, 3, none, none, none⟩,
       ⟨2, "a", GroupStatus.cancelled, 5, 1, none, none, none⟩], [], [], []⟩ 100 200).1
     ⟨1, "a", GroupStatus.active, 5, 3, none, none, none⟩ (by decide) (by decide),
   (daily_cleanup_idempotent ⟨[⟨1, "a", GroupStatus.active, 5, 3, none, none, none⟩,
       ⟨2, "a", GroupStatus.cancelled, 5, 1, none, none, none⟩], [], [], []⟩ 100 200).2.2⟩

theorem nodup_map_of_subperm {α β : Type} (f : α → β) {l1 l2 : List α}
    (h : List.Subperm l1 l2) (h2 : (l2.map f).Nodup) : (l1.map f).Nodup := by
  obtain ⟨m, hp, hs⟩ := h
  exact (hp.map f).nodup (List.Nodup.sublist (hs.map f) h2)

/-- Claim C6: activating a forming group with enough members fails with
no state change when fewer than 3 active venues exist in the area, and
otherwise succeeds, creating exactly `min 5 v` sessions whose orders are
`1, ..., min 5 v` over pairwise distinct venues, and setting the group
active; the sampler is any function returning a without-replacement
selection of the requested size, as `random.sample` does. -/
theorem start_group_venue_selection (db : Db) (t gid : Nat) (g : CrawlGroup)
    (sample : List Bar → Nat → List Bar)
    (hg : db.groups.find? (fun g2 => g2.id = gid) = some g)
    (hst : g.status = GroupStatus.forming)
    (hmem : ¬ g.current_members < MIN_GROUP_SIZE)
    (hsample : ∀ (l : List Bar) (k : Nat), k ≤ l.length →
      (sample l k).length = k ∧ List.Subperm (sample l k) l)
    (hbars : (db.bars.map (fun b => b.id)).Nodup) :
    ((db.bars.filter (fun b => b.area = g.area ∧ b.is_active = true)).length < 3 →
      start_group db t gid sample = (db, StartResult.errNotEnoughBars)) ∧
    (3 ≤ (db.bars.filter (fun b => b.area = g.area ∧ b.is_active = true)).length →
      ((start_group db t gid sample).2 = StartResult.started ∧
       ((start_group db t gid sample).1.sessions.drop db.sessions.length).length =
         min 5 (db.bars.filter (fun b => b.area = g.area ∧ b.is_active = true)).length ∧
       (((start_group db t gid sample).1.sessions.drop db.sessions.length).map
          (fun ss => ss.order_in_crawl)) =
         (List.range (min 5
           (db.bars.filter (fun b => b.area = g.area ∧ b.is_active = true)).length)).map
           (fun i => i + 1) ∧
       (((start_group db t gid sample).1.sessions.drop db.sessions.length).map
          (fun ss => ss.bar_id)).Nodup ∧
       (∀ g2 ∈ (start_group db t gid sample).1.groups, g2.id = gid →
         g2.status = GroupStatus.active ∧ g2.start_time = some t))) := by
  constructor
  · intro hv
    unfold start_group
    simp only [hg]
    rw [if_neg (fun hc => hc hst), if_neg hmem, if_pos hv]
  · intro hv
    have hlen : min 5 (db.bars.filter (fun b => b.area = g.area ∧ b.is_active = true)).length ≤
        (db.bars.filter (fun b => b.area = g.area ∧ b.is_active = true)).length :=
      Nat.min_le_right _ _
    obtain ⟨hslen, hsub⟩ := hsample
      (db.bars.filter (fun b => b.area = g.area ∧ b.is_active = true))
      (min 5 (db.bars.filter (fun b => b.area = g.area ∧ b.is_active = true)).length) hlen
    have hstart : start_group db t gid sample =
        ({ db with
            sessions := db.sessions ++
              ((sample (db.bars.filter (fun b => b.area = g.area ∧ b.is_active = true))
                (min 5 (db.bars.filter (fun b => b.area = g.area ∧ b.is_active = true)).length)).enum.map
                (fun p =>
                  { id := freshSessionId db + p.1, group_id := gid, bar_id := p.2.id,
                    order_in_crawl := p.1 + 1, is_current := p.1 == 0 : CrawlSession })),
            groups := db.groups.map (fun g2 =>
              if g2.id = gid then { g2 with status := GroupStatus.active, start_time := some t }
              else g2) },
         StartResult.started) := by
      unfold start_group
      simp only [hg]
      rw [if_neg (fun hc => hc hst), if_neg hmem, if_neg (by omega)]
    rw [hstart]
    refine ⟨rfl, ?_, ?_, ?_, ?_⟩
    · rw [List.drop_left]
      rw [List.length_map, List.enum_length, hslen]
    · rw [List.drop_left, List.map_map]
      have : ((fun ss : CrawlSession => ss.order_in_crawl) ∘
          (fun p : Nat × Bar =>
            { id := freshSessionId db + p.1, group_id := gid, bar_id := p.2.id,
              order_in_crawl := p.1 + 1, is_current := p.1 == 0 : CrawlSession })) =
          (fun i => i + 1) ∘ Prod.fst := rfl
      rw [this, ← List.map_map, List.enum_map_fst, hslen]
    · rw [List.drop_left, List.map_map]
      have hcomp : ((fun ss : CrawlSession => ss.bar_id) ∘
          (fun p : Nat × Bar =>
            { id := freshSessionId db + p.1, group_id := gid, bar_id := p.2.id,
              order_in_crawl := p.1 + 1, is_current := p.1 == 0 : CrawlSession })) =
          (fun b : Bar => b.id) ∘ Prod.snd := rfl
      rw [hcomp, ← List.map_map, List.enum_map_snd]
      exact nodup_map_of_subperm _ hsub
        (List.Nodup.sublist (List.Sublist.map _ (List.filter_sublist _)) hbars)
    · intro g2 hg2 hid
      obtain ⟨g0, hg0mem, hg0eq⟩ := List.mem_map.mp hg2
      by_cases h0 : g0.id = gid
      · rw [if_pos h0] at hg0eq
        rw [← hg0eq]
        exact ⟨rfl, rfl⟩
      · rw [if_neg h0] at hg0eq
        exfalso
        apply h0
        rw [hg0eq, hid]

/-- Witness for C6: a concrete forming group with 3 members and exactly
3 active bars in its area, sampled by the prefix selection, is
activated with a 3-session crawl. -/
theorem start_group_venue_selection_witness :
    ((⟨[⟨1, "a", GroupStatus.forming, 5, 3, none, none, none⟩], [],
        [⟨10, "a", true⟩, ⟨11, "a", true⟩, ⟨12, "a", true⟩], []⟩ : Db).groups.find?
        (fun g2 => g2.id = 1) = some ⟨1, "a", GroupStatus.forming, 5, 3, none, none, none⟩ ∧
      (∀ (l : List Bar) (k : Nat), k ≤ l.length →
        ((fun (l2 : List Bar) (k2 : Nat) => l2.take k2) l k).length = k ∧
        List.Subperm ((fun (l2 : List Bar) (k2 : Nat) => l2.take k2) l k) l) ∧
      3 ≤ ((⟨[⟨1, "a", GroupStatus.forming, 5, 3, none, none, none⟩], [],
        [⟨10, "a", true⟩, ⟨11, "a", true⟩, ⟨12, "a", true⟩], []⟩ : Db).bars.filter
        (fun b => b.area = "a" ∧ b.is_active = true)).length) ∧
    ((start_group ⟨[⟨1, "a", GroupStatus.forming, 5, 3, none, none, none⟩], [],
        [⟨10, "a", true⟩, ⟨11, "a", true⟩, ⟨12, "a", true⟩], []⟩ 50 1
        (fun (l2 : List Bar) (k2 : Nat) => l2.take k2)).2 = StartResult.started ∧
      ((start_group ⟨[⟨1, "a", GroupStatus.forming, 5, 3, none, none, none⟩], [],
        [⟨10, "a", true⟩, ⟨11, "a", true⟩, ⟨12, "a", true⟩], []⟩ 50 1
        (fun (l2 : List Bar) (k2 : Nat) => l2.take k2)).1.sessions.drop 0).length = 3) := by
  have hsmp : ∀ (l : List Bar) (k : Nat), k ≤ l.length →
      ((fun (l2 : List Bar) (k2 : Nat) => l2.take k2) l k).length = k ∧
      List.Subperm ((fun (l2 : List Bar) (k2 : Nat) => l2.take k2) l k) l := by
    intro l k hk
    refine ⟨?_, (List.take_sublist k l).subperm⟩
    rw [List.length_take]
    exact Nat.min_eq_left hk
  have hw := start_group_venue_selection
    ⟨[⟨1, "a", GroupStatus.forming, 5, 3, none, none, none⟩], [],
      [⟨10, "a", true⟩, ⟨11, "a", true⟩, ⟨12, "a", true⟩], []⟩ 50 1
    ⟨1, "a", GroupStatus.forming, 5, 3, none, none, none⟩
    (fun (l2 : List Bar) (k2 : Nat) => l2.take k2)
    (by decide) rfl (by decide) hsmp (by decide)
  have hc := hw.2 (by decide)
  exact ⟨⟨by decide, hsmp, by decide⟩, hc.1, hc.2.1⟩

theorem find?_map_pred_stable {α : Type} (l : List α) (u : α → α) (p : α → Bool)
    (h : ∀ a, p (u a) = p a) : (l.map u).find? p = (l.find? p).map u := by
  induction l with
  | nil => rfl
  | cons a l ih =>
      by_cases hp : p a = true
      · rw [List.map_cons, List.find?_cons_of_pos _ (by rw [h]; exact hp),
          List.find?_cons_of_pos _ hp]
        rfl
      · rw [List.map_cons, List.find?_cons_of_neg _ (by rw [h]; exact hp),
          List.find?_cons_of_neg _ hp, ih]

theorem find?_id_of_mem_nodup {α : Type} (key : α → Nat) (l : List α)
    (hnd : (l.map key).Nodup) (x : α) (hx : x ∈ l) :
    l.find? (fun a => key a = key x) = some x := by
  induction l with
  | nil => cases hx
  | cons a l ih =>
      rcases List.mem_cons.mp hx with h | h
      · rw [List.find?_cons_of_pos _ (by simp [h])]
        rw [h]
      · have hnd2 : (l.map key).Nodup := (List.nodup_cons.mp (by simpa using hnd)).2
        have hhead : key a ∉ l.map key := (List.nodup_cons.mp (by simpa using hnd)).1
        have hne : ¬ key a = key x := by
          intro hh
          exact hhead (hh ▸ List.mem_map_of_mem key h)
        rw [List.find?_cons_of_neg _ (by simpa using hne), ih hnd2 h]

/-- Claim C7: rejecting a non-active group changes nothing; on an active
group with a current session, one advance marks the current session
ended (not current, end time set) and either promotes the session with
the next order to current with the groups table untouched, or — when no
next session exists — completes the group with its end time set, a
result on which `progress_to_next_bar` never schedules a further
advance. -/
theorem next_bar_advances (db : Db) (t gid : Nat) (g : CrawlGroup)
    (hg : db.groups.find? (fun g2 => g2.id = gid) = some g)
    (hnodups : (db.sessions.map (fun ss => ss.id)).Nodup) :
    (¬ g.status = GroupStatus.active →
      next_bar db t gid = (db, NextBarResult.errNotActive)) ∧
    (g.status = GroupStatus.active →
      ∀ cur, db.sessions.find? (fun ss => ss.group_id = gid ∧ ss.is_current = true) = some cur →
        ((db.sessions.find? (fun ss =>
            ss.group_id = gid ∧ ss.order_in_crawl = cur.order_in_crawl + 1) = none →
          (next_bar db t gid).2 = NextBarResult.completedCrawl ∧
          (next_bar db t gid).1.sessions.find? (fun ss => ss.id = cur.id) =
            some { cur with is_current := false, end_time := some t } ∧
          (∀ g2 ∈ (next_bar db t gid).1.groups, g2.id = gid →
            g2.status = GroupStatus.completed ∧ g2.end_time = some t) ∧
          (∀ (b : Bool) (hour : Nat),
            ¬ progress_to_next_bar_action NextBarResult.completedCrawl b hour =
              NextAction.advanceIn 3600)) ∧
         (∀ nxt, db.sessions.find? (fun ss =>
            ss.group_id = gid ∧ ss.order_in_crawl = cur.order_in_crawl + 1) = some nxt →
          (next_bar db t gid).2 = NextBarResult.movedTo nxt.bar_id (cur.order_in_crawl + 1) ∧
          (next_bar db t gid).1.sessions.find? (fun ss => ss.id = cur.id) =
            some { cur with is_current := false, end_time := some t } ∧
          (next_bar db t gid).1.sessions.find? (fun ss => ss.id = nxt.id) =
            some { nxt with is_current := true, start_time := some t } ∧
          (next_bar db t gid).1.groups = db.groups))) := by
  have hfindcur : ∀ cur, cur ∈ db.sessions →
      db.sessions.find? (fun ss => ss.id = cur.id) = some cur := by
    intro cur hmem
    exact find?_id_of_mem_nodup (fun ss => ss.id) db.sessions hnodups cur hmem
  constructor
  · intro hna
    unfold next_bar
    simp only [hg]
    rw [if_pos hna]
  · intro hact cur hcur
    have hcurmem : cur ∈ db.sessions := List.mem_of_find?_eq_some hcur
    constructor
    · intro hnone
      have heq : next_bar db t gid =
          ({ db with
              sessions := db.sessions.map (fun s =>
                if s.id = cur.id then { s with is_current := false, end_time := some t }
                else s),
              groups := db.groups.map (fun g2 =>
                if g2.id = gid then
                  { g2 with status := GroupStatus.completed, end_time := some t }
                else g2) },
           NextBarResult.completedCrawl) := by
        unfold next_bar
        simp only [hg]
        rw [if_neg (fun hc => hc hact)]
        simp only [hcur, hnone]
      rw [heq]
      refine ⟨rfl, ?_, ?_, ?_⟩
      · rw [find?_map_pred_stable db.sessions _ _
          (by intro a; by_cases ha : a.id = cur.id <;> simp [ha]), hfindcur cur hcurmem]
        simp
      · intro g2 hg2 hid
        obtain ⟨g0, hg0mem, hg0eq⟩ := List.mem_map.mp hg2
        by_cases h0 : g0.id = gid
        · rw [if_pos h0] at hg0eq
          rw [← hg0eq]
          exact ⟨rfl, rfl⟩
        · rw [if_neg h0] at hg0eq
          exact absurd (by rw [hg0eq, hid]) h0
      · intro b hour
        cases b <;> simp [progress_to_next_bar_action]
    · intro nxt hnxt
      have hnxtmem : nxt ∈ db.sessions := List.mem_of_find?_eq_some hnxt
      have hnxtpred := List.find?_some hnxt
      have hnxtorder : nxt.order_in_crawl = cur.order_in_crawl + 1 := by
        simpa using (of_decide_eq_true hnxtpred).2
      have hcur_ne_nxt : ¬ cur = nxt := by
        intro he
        rw [← he] at hnxtorder
        omega
      have hne : ¬ cur.id = nxt.id := by
        intro hh
        exact hcur_ne_nxt (List.inj_on_of_nodup_map hnodups hcurmem hnxtmem hh)
      have hne2 : ¬ nxt.id = cur.id := fun hh => hne hh.symm
      have heq : next_bar db t gid =
          ({ db with
              sessions := (db.sessions.map (fun s =>
                if s.id = cur.id then { s with is_current := false, end_time := some t }
                else s)).map (fun s =>
                if s.id = nxt.id then { s with is_current := true, start_time := some t }
                else s) },
           NextBarResult.movedTo nxt.bar_id (cur.order_in_crawl + 1)) := by
        unfold next_bar
        simp only [hg]
        rw [if_neg (fun hc => hc hact)]
        simp only [hcur, hnxt]
      rw [heq]
      refine ⟨rfl, ?_, ?_, rfl⟩
      · rw [find?_map_pred_stable _ _ _
            (by intro a; by_cases ha : a.id = nxt.id <;> simp [ha]),
          find?_map_pred_stable db.sessions _ _
            (by intro a; by_cases ha : a.id = cur.id <;> simp [ha]),
          hfindcur cur hcurmem]
        simp [hne]
      · rw [find?_map_pred_stable _ _ _
            (by intro a; by_cases ha : a.id = nxt.id <;> simp [ha]),
          find?_map_pred_stable db.sessions _ _
            (by intro a; by_cases ha : a.id = cur.id <;> simp [ha]),
          hfindcur nxt hnxtmem]
        simp [hne2]

/-- Witness for C7 on a concrete two-session active crawl: advancing
promotes the order-2 session, and a second advance completes the group;
a non-active group is rejected unchanged. -/
theorem next_bar_advances_witness :
    ((⟨[⟨1, "a", GroupStatus.active, 5, 3, none, some 1, none⟩], [], [],
        [⟨100, 1, 10, 1, true, some 1, none⟩, ⟨101, 1, 11, 2, false, none, none⟩]⟩ :
        Db).groups.find? (fun g2 => g2.id = 1) =
      some ⟨1, "a", GroupStatus.active, 5, 3, none, some 1, none⟩ ∧
      (⟨1, "a", GroupStatus.active, 5, 3, none, some 1, none⟩ :
        CrawlGroup).status = GroupStatus.active) ∧
    (next_bar ⟨[⟨1, "a", GroupStatus.active, 5, 3, none, some 1, none⟩], [], [],
        [⟨100, 1, 10, 1, true, some 1, none⟩, ⟨101, 1, 11, 2, false, none, none⟩]⟩ 60 1).2 =
      NextBarResult.movedTo 11 2 ∧
    (next_bar ⟨[⟨1, "a", GroupStatus.active, 5, 3, none, some 1, none⟩], [], [],
        [⟨100, 1, 10, 1, true, some 1, none⟩,
         ⟨101, 1, 11, 2, false, none, none⟩]⟩ 60 1).1.sessions.find?
        (fun ss => ss.id = 100) = some ⟨100, 1, 10, 1, false, some 1, some 60⟩ ∧
    (next_bar ⟨[⟨1, "a", GroupStatus.cancelled, 5, 3, none, some 1, none⟩], [], [],
        [⟨100, 1, 10, 1, true, some 1, none⟩]⟩ 60 1) =
      (⟨[⟨1, "a", GroupStatus.cancelled, 5, 3, none, some 1, none⟩], [], [],
        [⟨100, 1, 10, 1, true, some 1, none⟩]⟩, NextBarResult.errNotActive) := by
  have h1 := next_bar_advances
    ⟨[⟨1, "a", GroupStatus.active, 5, 3, none, some 1, none⟩], [], [],
      [⟨100, 1, 10, 1, true, some 1, none⟩, ⟨101, 1, 11, 2, false, none, none⟩]⟩ 60 1
    ⟨1, "a", GroupStatus.active, 5, 3, none, some 1, none⟩ (by decide) (by decide)
  have h2 := ((h1.2 rfl ⟨100, 1, 10, 1, true, some 1, none⟩ (by decide)).2
    ⟨101, 1, 11, 2, false, none, none⟩ (by decide))
  have h3 := next_bar_advances
    ⟨[⟨1, "a", GroupStatus.cancelled, 5, 3, none, some 1, none⟩], [], [],
      [⟨100, 1, 10, 1, true, some 1, none⟩]⟩ 60 1
    ⟨1, "a", GroupStatus.cancelled, 5, 3, none, some 1, none⟩ (by decide) (by decide)
  exact ⟨⟨by decide, rfl⟩, h2.1, h2.2.1, h3.1 (by decide)⟩

end BeerCrawl
